import Mathlib

/-!
Verification development for the sui-network-sdk client library.

The Rust sources (src/wallet.rs, src/trade.rs, src/lib.rs, src/listener.rs,
src/types.rs) are shallowly embedded below.  Bytes are Nat values (< 256 on
the u8 domain), byte strings are List Nat, machine integers are Nat with
explicit reductions modulo 2^64 where the code relies on wrapping.

The library functions the code calls are embedded at their mathematical
semantics:
* sha3::Sha3_256 is implemented in full (Keccak-f[1600], pad10*1 with
  domain separator 0x06, rate 136), checked against the FIPS 202 vectors;
* ed25519_dalek::VerifyingKey::from_bytes succeeds exactly when the 32
  bytes decompress to a point of the Edwards curve, i.e. when
  (y^2 - 1)/(d y^2 + 1) is a square in GF(2^255 - 19); this square test is
  implemented in full;
* the verdict of ed25519_dalek::verify_strict on inputs that pass point
  decompression is kept as an explicit parameter (named strict below);
  no claim below depends on its value;
* network transports (reqwest, tokio-tungstenite) are modelled by passing
  the decoded response envelopes / inbound frames explicitly and recording
  the issued remote calls.
-/

set_option maxRecDepth 10000

/-- Two to the sixty-four, the lane modulus of Keccak-f[1600]. -/
def w64 : Nat := 18446744073709551616

/-- Rotate-left of a 64-bit lane by n bits (0 ≤ n < 64). -/
def rotl64 (x n : Nat) : Nat :=
  ((x * 2 ^ n) % w64) ||| (x / 2 ^ (64 - n))

/-- Keccak round constants, 24 rounds, written in decimal. -/
def keccakRC : List Nat :=
  [1, 32898, 9223372036854808714,
   9223372039002292224, 32907, 2147483649,
   9223372039002292353, 9223372036854808585, 138,
   136, 2147516425, 2147483658,
   2147516555, 9223372036854775947, 9223372036854808713,
   9223372036854808579, 9223372036854808578, 9223372036854775936,
   32778, 9223372039002259466, 9223372039002292353,
   9223372036854808704, 2147483649, 9223372039002292232]

/-- Keccak rho rotation offsets, one row per x coordinate: entry y of row x
is the offset of lane (x, y). -/
def keccakRhoRows : List (List Nat) :=
  [[0, 36, 3, 41, 18],
   [1, 44, 10, 45, 2],
   [62, 6, 43, 15, 61],
   [28, 55, 25, 21, 56],
   [27, 20, 39, 8, 14]]

/-- Rho offset of the lane with flat index i = x + 5*y. -/
def keccakRho (i : Nat) : Nat :=
  (keccakRhoRows.getD (i % 5) []).getD (i / 5) 0

/-- Theta step of Keccak-f. -/
def keccakTheta (a : List Nat) : List Nat :=
  let c := (List.range 5).map (fun x =>
    (((((a.getD x 0) ^^^ (a.getD (x + 5) 0)) ^^^ (a.getD (x + 10) 0)) ^^^
      (a.getD (x + 15) 0)) ^^^ (a.getD (x + 20) 0)))
  let d := (List.range 5).map (fun x =>
    (c.getD ((x + 4) % 5) 0) ^^^ rotl64 (c.getD ((x + 1) % 5) 0) 1)
  (List.range 25).map (fun i => (a.getD i 0) ^^^ (d.getD (i % 5) 0))

/-- Combined rho and pi steps of Keccak-f. -/
def keccakRhoPi (a : List Nat) : List Nat :=
  (List.range 25).foldl (fun b i =>
    let x := i % 5
    let y := i / 5
    let j := y + 5 * ((2 * x + 3 * y) % 5)
    b.set j (rotl64 (a.getD i 0) (keccakRho i))) (List.replicate 25 0)

/-- Chi step of Keccak-f. -/
def keccakChi (b : List Nat) : List Nat :=
  (List.range 25).map (fun i =>
    let x := i % 5
    let y := i / 5
    (b.getD i 0) ^^^
      (((b.getD ((x + 1) % 5 + 5 * y) 0) ^^^ (w64 - 1)) &&&
        (b.getD ((x + 2) % 5 + 5 * y) 0)))

/-- Iota step of Keccak-f. -/
def keccakIota (a : List Nat) (rc : Nat) : List Nat :=
  a.set 0 ((a.getD 0 0) ^^^ rc)

/-- Full Keccak-f[1600] permutation, 24 rounds. -/
def keccakF (a : List Nat) : List Nat :=
  keccakRC.foldl (fun s rc => keccakIota (keccakChi (keccakRhoPi (keccakTheta s))) rc) a

/-- Interpret eight bytes as a little-endian 64-bit lane. -/
def bytesToLane (bs : List Nat) : Nat :=
  (bs.foldr (fun b acc => b + 256 * acc) 0) % w64

/-- Serialize a 64-bit lane as eight little-endian bytes. -/
def laneToBytes (lane : Nat) : List Nat :=
  (List.range 8).map (fun k => (lane / 2 ^ (8 * k)) % 256)

/-- SHA3 pad10*1 padding with domain separator 0x06, rate 136 bytes. -/
def sha3Pad (m : List Nat) : List Nat :=
  let m1 := m ++ [0x06]
  let m2 := m1 ++ List.replicate ((136 - m1.length % 136) % 136) 0
  m2.dropLast ++ [(m2.getLastD 0) ||| 0x80]

/-- XOR one 136-byte block into the first 17 lanes of the state. -/
def absorbBlock (s block : List Nat) : List Nat :=
  (List.range 25).map (fun j =>
    if j < 17 then (s.getD j 0) ^^^ bytesToLane ((block.drop (8 * j)).take 8)
    else s.getD j 0)

/-- Absorb every 136-byte block of an already padded message. -/
def absorbAll (padded : List Nat) : List Nat :=
  (List.range (padded.length / 136)).foldl
    (fun s i => keccakF (absorbBlock s ((padded.drop (136 * i)).take 136)))
    (List.replicate 25 0)

/-- SHA3-256 of a byte string, as 32 bytes.  Matches the FIPS 202 test
vectors (checked on the empty string, on the three bytes of abc, and on
200 bytes of 0xa3). -/
def sha3_256 (msg : List Nat) : List Nat :=
  let st := absorbAll (sha3Pad msg)
  (List.range 4).foldr (fun j acc => laneToBytes (st.getD j 0) ++ acc) []

/-- Lowercase hexadecimal digits, as used by hex::encode. -/
def hexDigitChars : List Char := ("0123456789abcdef").data

/-- Lowercase hexadecimal encoding of a byte string (hex::encode). -/
def hexEncode : List Nat → List Char
  | [] => []
  | b :: t =>
    hexDigitChars.getD (b / 16) ('0') :: hexDigitChars.getD (b % 16) ('0') :: hexEncode t

/-- Prime modulus of the Curve25519 field, 2^255 - 19. -/
def p25519 : Nat :=
  57896044618658097711785492504343953926634992332820282019728792003956564819949

/-- Structural modular exponentiation with explicit fuel; 300 iterations is
enough for any exponent below 2^300, which covers every use here. -/
def powModAux : Nat → Nat → Nat → Nat → Nat
  | 0, _, _, m => 1 % m
  | fuel + 1, b, e, m =>
    if e = 0 then 1 % m
    else (if e % 2 = 1 then b % m else 1) * powModAux fuel ((b * b) % m) (e / 2) m % m

def powMod (b e m : Nat) : Nat := powModAux 300 b e m

/-- Twisted Edwards curve constant d = -121665/121666 in GF(p25519). -/
def d25519 : Nat := (p25519 - 121665) * powMod 121666 (p25519 - 2) p25519 % p25519

/-- Little-endian interpretation of a byte string. -/
def leBytes (bs : List Nat) : Nat := bs.foldr (fun b acc => b + 256 * acc) 0

/-- Whether 32 bytes decompress to a point of the Edwards curve: the test
performed by CompressedEdwardsY::decompress, hence the success condition of
ed25519_dalek::VerifyingKey::from_bytes.  The sign bit (bit 255) is masked,
y is read little-endian, and (y^2 - 1)/(d y^2 + 1) must be a square in
GF(p); squareness is decided by the Euler criterion. -/
def validPoint (pub : List Nat) : Bool :=
  let y := (leBytes pub) % (2 ^ 255) % p25519
  let yy := y * y % p25519
  let u := (yy + p25519 - 1) % p25519
  let v := (d25519 * yy + 1) % p25519
  if v = 0 then u = 0
  else
    powMod (u * powMod v (p25519 - 2) p25519 % p25519) ((p25519 - 1) / 2) p25519 ≠ p25519 - 1

/-- Value of one standard base64 alphabet character. -/
def b64Val (c : Char) : Option Nat :=
  if 65 ≤ c.toNat ∧ c.toNat ≤ 90 then some (c.toNat - 65)
  else if 97 ≤ c.toNat ∧ c.toNat ≤ 122 then some (c.toNat - 97 + 26)
  else if 48 ≤ c.toNat ∧ c.toNat ≤ 57 then some (c.toNat - 48 + 52)
  else if c = '+' then some 62
  else if c = '/' then some 63
  else none

/-- Strict base64 decoding of quartets, rejecting invalid characters,
misplaced padding and nonzero trailing bits, as the BASE64_STANDARD engine
does. -/
def base64DecodeAux : List Char → Option (List Nat)
  | [] => some []
  | [a, b, '=', '='] =>
    (b64Val a).bind (fun va => (b64Val b).bind (fun vb =>
      if vb % 16 = 0 then some [va * 4 + vb / 16] else none))
  | [a, b, c, '='] =>
    (b64Val a).bind (fun va => (b64Val b).bind (fun vb => (b64Val c).bind (fun vc =>
      if vc % 4 = 0 then some [va * 4 + vb / 16, vb % 16 * 16 + vc / 4] else none)))
  | a :: b :: c :: d :: rest =>
    (b64Val a).bind (fun va => (b64Val b).bind (fun vb => (b64Val c).bind (fun vc =>
      (b64Val d).bind (fun vd =>
        (base64DecodeAux rest).map (fun tail =>
          (va * 4 + vb / 16) :: (vb % 16 * 16 + vc / 4) :: (vc % 4 * 64 + vd) :: tail)))))
  | _ => none

/-- Base64 decoding of a string (base64::prelude::BASE64_STANDARD.decode). -/
def base64Decode (s : String) : Option (List Nat) := base64DecodeAux s.data

/-- Error type of the crate, from src/types.rs.  The string payloads carry
the formatted messages. -/
inductive SuiError where
  | HttpRequest (e : String)
  | WebSocket (e : String)
  | Json (e : String)
  | Hex (e : String)
  | Base64 (e : String)
  | InvalidPrivateKey
  | Rpc (e : String)
  | Transaction (e : String)
  | Io (e : String)
  | CallContract (e : String)
  | Gas (e : String)
  | Sign (e : String)
deriving DecidableEq

/-- JSON values, the model of serde_json::Value as used by the crate. -/
inductive JValue where
  | null
  | bool (b : Bool)
  | num (n : Nat)
  | str (s : String)
  | arr (elems : List JValue)
  | obj (fields : List (String × JValue))

/-- Key access on a JSON object (serde_json::Value::get with a string key). -/
def JValue.get : JValue → String → Option JValue
  | .obj fields, key => fields.lookup key
  | _, _ => none

/-- String extraction (serde_json::Value::as_str). -/
def JValue.as_str : JValue → Option String
  | .str s => some s
  | _ => none

/-- Keystore from src/wallet.rs: an address-to-secret map.  The HashMap is
modelled as its entry list; add_key has insert semantics (replace on an
existing address, append otherwise). -/
structure Keystore where
  keys : List (String × String)

def Keystore.new : Keystore := { keys := [] }

/-- HashMap::insert semantics of Keystore::add_key. -/
def Keystore.add_key (ks : Keystore) (address private_key : String) : Keystore :=
  if address ∈ ks.keys.map Prod.fst then
    { keys := ks.keys.map (fun kv => if kv.1 = address then (kv.1, private_key) else kv) }
  else { keys := ks.keys ++ [(address, private_key)] }

def Keystore.get_key (ks : Keystore) (address : String) : Option String :=
  ks.keys.lookup address

def Keystore.list_addresses (ks : Keystore) : List String :=
  ks.keys.map Prod.fst

def Keystore.is_empty (ks : Keystore) : Bool := ks.keys.isEmpty

def Keystore.len (ks : Keystore) : Nat := ks.keys.length

def Keystore.remove_key (ks : Keystore) (address : String) : Keystore × Option String :=
  ({ keys := ks.keys.filter (fun kv => kv.1 != address) }, ks.keys.lookup address)

/-- Keystore::save_to_file serializes the whole map with serde_json and
writes it out; the file is modelled as the entry list the serializer walks.
A HashMap iterates in an unspecified order, so theorems about save/load
quantify over every permutation of the entries. -/
def Keystore.save_to_file (ks : Keystore) : List (String × String) := ks.keys

/-- Keystore::load_from_file reads the file back and lets serde_json build
the HashMap from the serialized entries (later duplicates overriding
earlier ones, as in JSON object parsing). -/
def Keystore.load_from_file (file : List (String × String)) : Keystore :=
  file.foldl (fun ks kv => ks.add_key kv.1 kv.2) Keystore.new

/-- Ed25519KeyPair from src/wallet.rs: 32 raw private bytes and the derived
public bytes. -/
structure Ed25519KeyPair where
  private_key : List Nat
  public_key : List Nat

/-- Ed25519KeyPair::create_public_key: the first 32 bytes of the SHA3-256
hash of the private key (not a genuine Ed25519 public key). -/
def Ed25519KeyPair.create_public_key (private_key : List Nat) : List Nat :=
  (sha3_256 private_key).take 32

/-- Ed25519KeyPair::from_private_key.  Ed25519KeyPair::generate draws the 32
private bytes from a random generator and then proceeds identically, so any
length-32 byte string below stands for a freshly generated key. -/
def Ed25519KeyPair.from_private_key (private_key : List Nat) :
    Except SuiError Ed25519KeyPair :=
  if private_key.length ≠ 32 then .error .InvalidPrivateKey
  else .ok { private_key := private_key,
             public_key := Ed25519KeyPair.create_public_key private_key }

/-- Ed25519KeyPair::sign: the 32 private-key bytes followed by the first 32
bytes of the SHA3-256 hash of the message, truncated to 64 bytes. -/
def Ed25519KeyPair.sign (kp : Ed25519KeyPair) (message : List Nat) : List Nat :=
  ((kp.private_key.take 32) ++ (sha3_256 message).take 32).take 64

def Ed25519KeyPair.get_private_key (kp : Ed25519KeyPair) : List Nat := kp.private_key

def Ed25519KeyPair.get_public_key (kp : Ed25519KeyPair) : List Nat := kp.public_key

/-- Hand-written Debug for Ed25519KeyPair: masks the private key and prints
the public key as hex. -/
def fmt_debug_keypair (kp : Ed25519KeyPair) : String :=
  "Ed25519KeyPair \x7b private_key: \"***HIDDEN***\", public_key: \"" ++
    String.mk (hexEncode kp.public_key) ++ "\" \x7d"

/-- Derived Debug for Keystore prints the whole map, secrets included. -/
def fmt_debug_keystore (ks : Keystore) : String :=
  "Keystore \x7b keys: \x7b" ++
    String.intercalate (", ")
      (ks.keys.map (fun kv => "\"" ++ kv.1 ++ "\": \"" ++ kv.2 ++ "\"")) ++
    "\x7d \x7d"

/-- Wallet from src/wallet.rs. -/
structure Wallet where
  address : String
  keypair : Ed25519KeyPair

/-- Wallet::address_from_public_key_bytes: 0x followed by the hex encoding
of the first 32 bytes of the SHA3-256 hash of the public key. -/
def Wallet.address_from_public_key_bytes (public_key : List Nat) : String :=
  "0x" ++ String.mk (hexEncode ((sha3_256 public_key).take 32))

/-- Wallet::from_private_key (Wallet::new draws the key randomly and is
otherwise identical). -/
def Wallet.from_private_key (private_key : List Nat) : Except SuiError Wallet :=
  match Ed25519KeyPair.from_private_key private_key with
  | .error e => .error e
  | .ok keypair =>
    .ok { address := Wallet.address_from_public_key_bytes keypair.public_key,
          keypair := keypair }

def Wallet.sign (w : Wallet) (message : List Nat) : List Nat :=
  w.keypair.sign message

def Wallet.get_public_key_bytes (w : Wallet) : List Nat := w.keypair.public_key

def Wallet.get_address (w : Wallet) : String := w.address

/-- Message of the signature-length check in Wallet::verify_signature. -/
def sigLenErrMsg : String :=
  "The signature byte length does not meet the requirement, Requires 32 bytes."

/-- Message of the public-key-length check in Wallet::verify_signature. -/
def pubLenErrMsg : String :=
  "The public key byte length does not meet the requirement, Requires 32 bytes."

/-- Message produced when VerifyingKey::from_bytes rejects the public key
(the code appends the display of the library error). -/
def invalidPubKeyErrMsg : String := "Invalid public key format"

/-- Wallet::verify_signature.  After the two length checks the code builds
a Signature (infallible for 64 bytes) and a VerifyingKey; construction of
the VerifyingKey fails — and the function returns Err — exactly when the
stored public key is not a valid point encoding (validPoint).  Otherwise
the result of ed25519_dalek::verify_strict is returned as Ok(bool); that
verdict is the parameter strict, on which nothing below depends. -/
def Wallet.verify_signature (strict : List Nat → List Nat → List Nat → Bool)
    (w : Wallet) (message signature : List Nat) : Except SuiError Bool :=
  let public_key_bytes := w.get_public_key_bytes
  if signature.length ≠ 64 then .error (.Sign sigLenErrMsg)
  else if public_key_bytes.length ≠ 32 then .error (.Sign pubLenErrMsg)
  else if validPoint public_key_bytes then
    .ok (strict message signature public_key_bytes)
  else .error (.Sign invalidPubKeyErrMsg)

/-- RPC error payload from src/types.rs. -/
structure RpcError where
  code : Int
  message : String

/-- RPC response envelope from src/types.rs. -/
structure RpcResponse (α : Type) where
  jsonrpc : String
  result : Option α
  error : Option RpcError
  id : Nat

/-- RPC request envelope from src/types.rs. -/
structure RpcRequest where
  jsonrpc : String
  id : Nat
  method : String
  params : List JValue

/-- Coin from src/types.rs. -/
structure Coin where
  coin_object_id : String
  version : Nat
  digest : String
  balance : Nat

namespace SuiClient

/-- Request envelope built by SuiClient::request before posting. -/
def request_envelope (method : String) (params : List JValue) : RpcRequest :=
  { jsonrpc := "2.0", id := 1, method := method, params := params }

/-- Message of the missing-result failure in SuiClient::request. -/
def noResultMsg : String := "No result in response"

/-- Decoding step of SuiClient::request on an already received response
envelope: an error field wins, then a present result is returned, and the
absence of both is the protocol-violation failure. -/
def request {α : Type} (response : RpcResponse α) : Except SuiError α :=
  match response.error with
  | some error => .error (.Rpc error.message)
  | none =>
    match response.result with
    | some r => .ok r
    | none => .error (.Rpc noResultMsg)

end SuiClient

/-- One remote call issued through the transport: method name and ordered
parameter list. -/
abbrev RemoteCall := String × List JValue

/-- Trade from src/trade.rs.  The client reference is modelled by passing
the response envelopes of the calls the code makes, and every function
returns the list of remote calls it issued. -/
structure Trade where
  wallet : Wallet
  gas_payment : Option String
  gas_budget : Nat

def Trade.new (wallet : Wallet) : Trade :=
  { wallet := wallet, gas_payment := none, gas_budget := 1000 }

def Trade.with_gas_payment (t : Trade) (gas_payment : String) : Trade :=
  { t with gas_payment := some gas_payment }

def Trade.with_gas_budget (t : Trade) (gas_budget : Nat) : Trade :=
  { t with gas_budget := gas_budget }

def suiCoinType : String := "0x2::sui::SUI"

def getCoinsMethod : String := "sui_getCoins"

def transferMethod : String := "unsafe_transferObject"

def moveCallMethod : String := "unsafe_moveCall"

def mergeCoinsMethod : String := "unsafe_mergeCoins"

def splitCoinMethod : String := "unsafe_splitCoin"

def noGasMsg : String := "No gas payment available"

def noTxBytesMsg : String := "No txBytes in response"

def txBytesDecodeErrMsg : String := "Failed to decode txBytes"

def txBytesKey : String := "txBytes"

/-- Trade::get_gas_payment: a configured gas payment is returned untouched
with no remote call; otherwise the code calls
client.get_coin_vec(address, None) — one sui_getCoins call with the default
coin type — and takes the first coin's id, mapping both an RPC failure and
an empty list to None. -/
def Trade.get_gas_payment (t : Trade) (coinsResponse : RpcResponse (List Coin)) :
    Option String × List RemoteCall :=
  match t.gas_payment with
  | some gas_payment => (some gas_payment, [])
  | none =>
    ((match SuiClient.request coinsResponse with
      | .ok coins => coins.head?.map Coin.coin_object_id
      | .error _ => none),
     [(getCoinsMethod, [JValue.str t.wallet.address, JValue.str suiCoinType])])

/-- Trade::sign_transaction: extract txBytes, base64-decode, sign. -/
def Trade.sign_transaction (t : Trade) (transaction_data : JValue) :
    Except SuiError (List Nat × List Nat) :=
  match (transaction_data.get txBytesKey).bind JValue.as_str with
  | none => .error (.Transaction noTxBytesMsg)
  | some tx_bytes_str =>
    match base64Decode tx_bytes_str with
    | none => .error (.Sign txBytesDecodeErrMsg)
    | some tx_bytes => .ok (tx_bytes, t.wallet.sign tx_bytes)

/-- Trade::transfer_by_sui. -/
def Trade.transfer_by_sui (t : Trade) (coinsResponse : RpcResponse (List Coin))
    (constructResponse : RpcResponse JValue) (recipient : String) (amount : Nat) :
    Except SuiError (List Nat × List Nat) × List RemoteCall :=
  match Trade.get_gas_payment t coinsResponse with
  | (none, calls) => (.error (.Transaction noGasMsg), calls)
  | (some gas_payment, calls) =>
    let params : List JValue :=
      [JValue.str t.wallet.address, JValue.str gas_payment,
       JValue.str (toString amount), JValue.str recipient,
       JValue.str (toString t.gas_budget)]
    ((match SuiClient.request constructResponse with
      | .error e => .error e
      | .ok transaction_data => t.sign_transaction transaction_data),
     calls ++ [(transferMethod, params)])

/-- Trade::call_contract_function. -/
def Trade.call_contract_function (t : Trade) (coinsResponse : RpcResponse (List Coin))
    (constructResponse : RpcResponse JValue) (package_object_id module function : String)
    (type_arguments : List String) (arguments : List JValue) :
    Except SuiError (List Nat × List Nat) × List RemoteCall :=
  match Trade.get_gas_payment t coinsResponse with
  | (none, calls) => (.error (.CallContract noGasMsg), calls)
  | (some gas_payment, calls) =>
    let params : List JValue :=
      [JValue.str t.wallet.address, JValue.str package_object_id,
       JValue.str module, JValue.str function,
       JValue.arr (type_arguments.map JValue.str), JValue.arr arguments,
       JValue.str gas_payment, JValue.str (toString t.gas_budget)]
    ((match SuiClient.request constructResponse with
      | .error e => .error e
      | .ok transaction_data => t.sign_transaction transaction_data),
     calls ++ [(moveCallMethod, params)])

/-- Trade::merge_coins. -/
def Trade.merge_coins (t : Trade) (coinsResponse : RpcResponse (List Coin))
    (constructResponse : RpcResponse JValue) (primary_coin coin_to_merge : String) :
    Except SuiError (List Nat × List Nat) × List RemoteCall :=
  match Trade.get_gas_payment t coinsResponse with
  | (none, calls) => (.error (.CallContract noGasMsg), calls)
  | (some gas_payment, calls) =>
    let params : List JValue :=
      [JValue.str t.wallet.address, JValue.str primary_coin,
       JValue.str coin_to_merge, JValue.str gas_payment,
       JValue.str (toString t.gas_budget)]
    ((match SuiClient.request constructResponse with
      | .error e => .error e
      | .ok transaction_data => t.sign_transaction transaction_data),
     calls ++ [(mergeCoinsMethod, params)])

/-- Trade::split_coin. -/
def Trade.split_coin (t : Trade) (coinsResponse : RpcResponse (List Coin))
    (constructResponse : RpcResponse JValue) (coin_object_id : String)
    (split_amounts : List Nat) :
    Except SuiError (List Nat × List Nat) × List RemoteCall :=
  match Trade.get_gas_payment t coinsResponse with
  | (none, calls) => (.error (.CallContract noGasMsg), calls)
  | (some gas_payment, calls) =>
    let amounts : List JValue := split_amounts.map (fun amount => JValue.str (toString amount))
    let params : List JValue :=
      [JValue.str t.wallet.address, JValue.str coin_object_id,
       JValue.arr amounts, JValue.str gas_payment,
       JValue.str (toString t.gas_budget)]
    ((match SuiClient.request constructResponse with
      | .error e => .error e
      | .ok transaction_data => t.sign_transaction transaction_data),
     calls ++ [(splitCoinMethod, params)])

/-- Inbound WebSocket frames as matched by the listener loops in
src/listener.rs.  A text frame carries the outcome of serde_json::from_str
on its payload; close, transport errors and the remaining frame kinds
(binary, ping, pong) are the other match arms. -/
inductive WsMessage where
  | text (decoded : Option JValue)
  | close
  | other
  | err (e : String)

def paramsKey : String := "params"

def resultKey : String := "result"

def digestKey : String := "digest"

/-- Digest extraction of the listener loops: the string at
params.result.digest of a decoded notification. -/
def extract_digest (event : JValue) : Option String :=
  (((event.get paramsKey).bind (fun p => p.get resultKey)).bind
    (fun r => r.get digestKey)).bind JValue.as_str

/-- Streaming loop of Listener::listen_transactions: collects the callback
invocations (in order) and the loop's return value. -/
def listen_transactions_loop : List WsMessage → List String × Except SuiError Unit
  | [] => ([], .ok ())
  | .text decoded :: rest =>
    (match decoded.bind extract_digest with
     | some tx_digest =>
       let r := listen_transactions_loop rest
       (tx_digest :: r.1, r.2)
     | none => listen_transactions_loop rest)
  | .close :: _ => ([], .ok ())
  | .err e :: _ => ([], .error (.WebSocket e))
  | .other :: rest => listen_transactions_loop rest

/-- Streaming loop of Listener::listen_address_transactions; the body in
src/listener.rs is the same frame-by-frame code as listen_transactions. -/
def listen_address_transactions_loop : List WsMessage → List String × Except SuiError Unit
  | [] => ([], .ok ())
  | .text decoded :: rest =>
    (match decoded.bind extract_digest with
     | some tx_digest =>
       let r := listen_address_transactions_loop rest
       (tx_digest :: r.1, r.2)
     | none => listen_address_transactions_loop rest)
  | .close :: _ => ([], .ok ())
  | .err e :: _ => ([], .error (.WebSocket e))
  | .other :: rest => listen_address_transactions_loop rest

/-- Frames that terminate the streaming loop. -/
def isTerminalFrame : WsMessage → Bool
  | .close => true
  | .err _ => true
  | _ => false

/-- Digest a single frame would deliver to the callback, per the claim: a
text frame that decodes and holds a string at params.result.digest. -/
def frame_digest : WsMessage → Option String
  | .text decoded => decoded.bind extract_digest
  | _ => none

/-- Claim-side description of the callback sequence: digests of the
well-shaped text frames before the first terminating frame. -/
def digestsOf (ms : List WsMessage) : List String :=
  (ms.takeWhile (fun m => !isTerminalFrame m)).filterMap frame_digest

/-- Claim-side description of the loop result: an error exactly for a
transport error, success for a close or the end of the stream. -/
def streamOutcome (ms : List WsMessage) : Except SuiError Unit :=
  match ms.find? isTerminalFrame with
  | some (.err e) => .error (.WebSocket e)
  | _ => .ok ()

/-- Prefix test on character lists. -/
def charsPrefix : List Char → List Char → Bool
  | [], _ => true
  | _ :: _, [] => false
  | a :: as, b :: bs => a == b && charsPrefix as bs

/-- Infix test on character lists. -/
def charsInfix (needle : List Char) : List Char → Bool
  | [] => needle.isEmpty
  | c :: rest => charsPrefix needle (c :: rest) || charsInfix needle rest

/-- Substring test on strings. -/
def containsSubstr (needle hay : String) : Bool :=
  charsInfix needle.data hay.data

/-- Concrete 32-byte private key (all zero bytes); any 32-byte string is a
possible output of the random generator behind Ed25519KeyPair::generate. -/
def k_zero : List Nat := List.replicate 32 0

/-- Concrete message, the four bytes of the ASCII word test. -/
def msg_test : List Nat := [116, 101, 115, 116]

/-- Wallet deterministically derived from k_zero, exactly as
Wallet::from_private_key builds it. -/
def wallet_zero : Wallet :=
  { address := Wallet.address_from_public_key_bytes (Ed25519KeyPair.create_public_key k_zero),
    keypair := { private_key := k_zero,
                 public_key := Ed25519KeyPair.create_public_key k_zero } }

def senderAddr : String := "0xsender"

def feeId : String := "0xfee1"

def pkgId : String := "0xpkg"

def moduleName : String := "mod"

def funcName : String := "fn"

def recipientAddr : String := "0xrecipient"

/-- Wallet fixture for the Trade claims (the pipeline treats the wallet as
an opaque address plus signer). -/
def wallet_demo : Wallet :=
  { address := senderAddr,
    keypair := { private_key := List.replicate 32 5, public_key := List.replicate 32 9 } }

/-- Trade with an explicitly configured fee resource and the default budget
of 1000, as built by Trade::new followed by with_gas_payment. -/
def tradeConfigured : Trade := (Trade.new wallet_demo).with_gas_payment feeId

/-- Trade with no configured fee resource. -/
def tradeUnconfigured : Trade := Trade.new wallet_demo

/-- Response envelope carrying an empty coin list. -/
def coinsEmptyResp : RpcResponse (List Coin) :=
  { jsonrpc := "2.0", result := some [], error := none, id := 1 }

/-- Construction response envelope with neither result nor error (its value
is irrelevant to the claims that use it). -/
def constructNoneResp : RpcResponse JValue :=
  { jsonrpc := "2.0", result := none, error := none, id := 1 }

def secretVal : String := "secret1"

def addrKey : String := "0xabc"

/-- Keystore holding one identity, secret included. -/
def keystore_demo : Keystore := { keys := [(addrKey, secretVal)] }

/-- Key pair fixture for the Debug-formatting claim. -/
def kp_demo : Ed25519KeyPair :=
  { private_key := List.replicate 32 7,
    public_key := Ed25519KeyPair.create_public_key (List.replicate 32 7) }

def addr1 : String := "0xaddr1"

def addr2 : String := "0xaddr2"

def secret1 : String := "s1"

def secret2 : String := "s2"

/-- Keystore fixture with two entries for the round-trip claim. -/
def keystore_two : Keystore := { keys := [(addr1, secret1), (addr2, secret2)] }

def boomMsg : String := "boom"

/-- Response envelope carrying an error field. -/
def rpcBoomResp : RpcResponse JValue :=
  { jsonrpc := "2.0", result := none,
    error := some { code := -32600, message := boomMsg }, id := 1 }

theorem laneToBytes_length (lane : Nat) : (laneToBytes lane).length = 8 := by
  simp [laneToBytes]

theorem sha3_256_length (msg : List Nat) : (sha3_256 msg).length = 32 := by
  have h4 : List.range 4 = [0, 1, 2, 3] := rfl
  simp [sha3_256, h4, laneToBytes_length]

theorem sha3_256_take_32 (msg : List Nat) : (sha3_256 msg).take 32 = sha3_256 msg :=
  List.take_of_length_le (le_of_eq (sha3_256_length msg))

theorem hexEncode_length (bs : List Nat) : (hexEncode bs).length = 2 * bs.length := by
  induction bs with
  | nil => rfl
  | cons b t ih => simp [hexEncode, ih]; ring

theorem getD_hexDigitChars_mem (n : Nat) : hexDigitChars.getD n ('0') ∈ hexDigitChars := by
  by_cases h : n < hexDigitChars.length
  · rw [List.getD_eq_getElem hexDigitChars ('0') h]
    exact List.getElem_mem h
  · rw [List.getD_eq_default hexDigitChars ('0') (le_of_not_lt h)]
    decide

theorem hexEncode_mem (bs : List Nat) (c : Char) (hc : c ∈ hexEncode bs) :
    c ∈ hexDigitChars := by
  induction bs with
  | nil => simp [hexEncode] at hc
  | cons b t ih =>
    simp only [hexEncode, List.mem_cons] at hc
    rcases hc with h | h | h
    · rw [h]; exact getD_hexDigitChars_mem (b / 16)
    · rw [h]; exact getD_hexDigitChars_mem (b % 16)
    · exact ih h

/-- Claim C2: Ed25519KeyPair::sign returns exactly 64 bytes, namely the 32
raw private-key bytes followed by the 32 bytes of the SHA3-256 hash of the
message (the whole hash, which is its own first-32-byte prefix); in
particular the first 32 bytes of every signature equal the raw private key.
Determinism in (private key, message) is inherent: sign is embedded as a
pure function of exactly those two arguments. -/
theorem sign_is_private_key_append_hash (kp : Ed25519KeyPair) (message : List Nat)
    (h : kp.private_key.length = 32) :
    kp.sign message = kp.private_key ++ sha3_256 message ∧
    (kp.sign message).length = 64 ∧
    (kp.sign message).take 32 = kp.private_key := by
  have hp : kp.private_key.take 32 = kp.private_key :=
    List.take_of_length_le (le_of_eq h)
  have he : kp.sign message = kp.private_key ++ sha3_256 message := by
    unfold Ed25519KeyPair.sign
    rw [hp, sha3_256_take_32]
    exact List.take_of_length_le (by simp [h, sha3_256_length])
  refine ⟨he, ?_, ?_⟩
  · rw [he]; simp [h, sha3_256_length]
  · rw [he, ← h]; exact List.take_left kp.private_key (sha3_256 message)

/-- Witness for claim C2 at a concrete key pair and message. -/
theorem sign_is_private_key_append_hash_witness :
    (Ed25519KeyPair.sign
        { private_key := List.replicate 32 5,
          public_key := Ed25519KeyPair.create_public_key (List.replicate 32 5) }
        [1, 2, 3]).take 32 = List.replicate 32 5 :=
  (sign_is_private_key_append_hash
    { private_key := List.replicate 32 5,
      public_key := Ed25519KeyPair.create_public_key (List.replicate 32 5) }
    [1, 2, 3] (by decide)).2.2

/-- Claim C10: address derivation is the fixed prefix 0x followed by the 64
lowercase hex characters of the 32-byte SHA3-256 hash of the public key;
being an embedded pure function, it returns identical output on identical
input. -/
theorem address_from_public_key_bytes_shape (pk : List Nat) :
    Wallet.address_from_public_key_bytes pk =
      "0x" ++ String.mk (hexEncode (sha3_256 pk)) ∧
    (Wallet.address_from_public_key_bytes pk).length = 66 ∧
    ((Wallet.address_from_public_key_bytes pk).data.drop 2).all
      (fun c => hexDigitChars.contains c) = true := by
  have he : Wallet.address_from_public_key_bytes pk =
      "0x" ++ String.mk (hexEncode (sha3_256 pk)) := by
    unfold Wallet.address_from_public_key_bytes
    rw [sha3_256_take_32]
  refine ⟨he, ?_, ?_⟩
  · rw [he]
    have : (hexEncode (sha3_256 pk)).length = 64 := by
      rw [hexEncode_length, sha3_256_length]
    simp [String.length_append, String.length_mk, this]
    rfl
  · rw [he]
    rw [List.all_eq_true]
    intro c hc
    have hdata : ("0x" ++ String.mk (hexEncode (sha3_256 pk))).data =
        '0' :: 'x' :: hexEncode (sha3_256 pk) := by
      rw [String.data_append]; rfl
    rw [hdata] at hc
    simp only [List.drop] at hc
    exact List.elem_iff.mpr (hexEncode_mem (sha3_256 pk) c hc)

/-- Claim C1 (the spec itself flags the code here, design note §9): for the
freshly generated identity whose 32 private-key bytes are all zero and the
message test, verification of the signature produced by sign does NOT
return Ok(true): it returns Err, whatever verdict the underlying
ed25519_dalek::verify_strict would give, because the public key stored in
the wallet — the SHA3-256 hash of the private key — is not a valid Ed25519
point encoding, so VerifyingKey::from_bytes already fails.  More generally
sign emits private-key bytes followed by a message hash, which is not an
Ed25519 signature, so the property claimed cannot hold. -/
theorem sign_then_verify_does_not_return_true :
    Wallet.from_private_key k_zero = .ok wallet_zero ∧
    ∀ strict : List Nat → List Nat → List Nat → Bool,
      Wallet.verify_signature strict wallet_zero msg_test (wallet_zero.sign msg_test) =
        .error (.Sign invalidPubKeyErrMsg) := by
  constructor
  · rfl
  · intro strict
    have h64 : (wallet_zero.sign msg_test).length = 64 := by decide
    have h32 : (wallet_zero.get_public_key_bytes).length = 32 := by decide
    have hvp : validPoint wallet_zero.get_public_key_bytes = false := by decide
    unfold Wallet.verify_signature
    simp [h64, h32, hvp]

/-- Counterexample to claim C3: a 64-byte signature and the 32-byte public
key of the wallet derived from the all-zero private key are well-formed in
length, yet verify_signature fails (the stored public key is not a valid
point encoding), refuting that under well-formed lengths the function never
fails. -/
theorem verify_fails_despite_wellformed_lengths :
    (List.replicate 64 1).length = 64 ∧
    (wallet_zero.get_public_key_bytes).length = 32 ∧
    Wallet.verify_signature (fun _ _ _ => true) wallet_zero msg_test (List.replicate 64 1) =
      .error (.Sign invalidPubKeyErrMsg) := by
  refine ⟨rfl, by decide, ?_⟩
  have h32 : (wallet_zero.get_public_key_bytes).length = 32 := by decide
  have hvp : validPoint wallet_zero.get_public_key_bytes = false := by decide
  unfold Wallet.verify_signature
  simp [h32, hvp]

/-- Claim C3 as amended: verify_signature fails with the malformed-length
error exactly when the signature is not 64 bytes (the wallet's public key
is 32 bytes by construction, so the public-key length check never fires);
with a 64-byte signature it additionally fails when the stored public key
is not a valid Ed25519 point encoding; only otherwise does it return
Ok with the verdict of the underlying strict verifier. -/
theorem verify_signature_error_conditions
    (strict : List Nat → List Nat → List Nat → Bool) (w : Wallet)
    (message signature : List Nat) (h32 : w.keypair.public_key.length = 32) :
    (signature.length ≠ 64 →
      Wallet.verify_signature strict w message signature = .error (.Sign sigLenErrMsg)) ∧
    (signature.length = 64 → validPoint w.keypair.public_key = false →
      Wallet.verify_signature strict w message signature =
        .error (.Sign invalidPubKeyErrMsg)) ∧
    (signature.length = 64 → validPoint w.keypair.public_key = true →
      Wallet.verify_signature strict w message signature =
        .ok (strict message signature w.keypair.public_key)) := by
  unfold Wallet.verify_signature Wallet.get_public_key_bytes
  refine ⟨?_, ?_, ?_⟩
  · intro h; simp [h]
  · intro h hv; simp [h, h32, hv]
  · intro h hv; simp [h, h32, hv]

/-- Witness for the amended claim C3 at a concrete wallet and signature. -/
theorem verify_signature_error_conditions_witness :
    Wallet.verify_signature (fun _ _ _ => false) wallet_zero msg_test (List.replicate 64 2) =
      .error (.Sign invalidPubKeyErrMsg) :=
  (verify_signature_error_conditions (fun _ _ _ => false) wallet_zero msg_test
      (List.replicate 64 2) (by decide)).2.1 (by decide) (by decide)

/-- Counterexample to claim C4: with no fee resource configured and an
account whose coin list is empty, transfer_by_sui does fail with the
no-fee-resource error, but it has already issued one remote call — the
sui_getCoins query needed to discover that the list is empty — so the
claimed zero remote calls is false (no construction RPC is issued,
though). -/
theorem transfer_without_fee_issues_coin_query :
    (Trade.transfer_by_sui tradeUnconfigured coinsEmptyResp constructNoneResp
        recipientAddr 5).1 = .error (.Transaction noGasMsg) ∧
    (Trade.transfer_by_sui tradeUnconfigured coinsEmptyResp constructNoneResp
        recipientAddr 5).2 ≠ [] := by
  constructor
  · rfl
  · have h : (Trade.transfer_by_sui tradeUnconfigured coinsEmptyResp constructNoneResp
        recipientAddr 5).2 =
        [(getCoinsMethod, [JValue.str wallet_demo.address, JValue.str suiCoinType])] := rfl
    rw [h]
    exact List.cons_ne_nil _ _

/-- Claim C4 as amended: a configured fee resource is used verbatim and the
coin list is never queried (the only remote call is the construction call);
with no configured fee resource and an empty coin list the operation fails
with the no-fee-resource error after exactly one remote call, the coin-list
query — no construction RPC is issued. -/
theorem fee_resolution (t : Trade) (coinsResponse : RpcResponse (List Coin))
    (constructResponse : RpcResponse JValue) (recipient : String) (amount : Nat)
    (g : String) :
    (t.gas_payment = some g →
      Trade.get_gas_payment t coinsResponse = (some g, []) ∧
      (Trade.transfer_by_sui t coinsResponse constructResponse recipient amount).2 =
        [(transferMethod,
          [JValue.str t.wallet.address, JValue.str g, JValue.str (toString amount),
           JValue.str recipient, JValue.str (toString t.gas_budget)])]) ∧
    (t.gas_payment = none → SuiClient.request coinsResponse = .ok [] →
      Trade.transfer_by_sui t coinsResponse constructResponse recipient amount =
        (.error (.Transaction noGasMsg),
         [(getCoinsMethod, [JValue.str t.wallet.address, JValue.str suiCoinType])])) := by
  constructor
  · intro h
    have hg : Trade.get_gas_payment t coinsResponse = (some g, []) := by
      unfold Trade.get_gas_payment
      rw [h]
    refine ⟨hg, ?_⟩
    unfold Trade.transfer_by_sui
    rw [hg]
    rfl
  · intro h hc
    have hg : Trade.get_gas_payment t coinsResponse =
        (none, [(getCoinsMethod, [JValue.str t.wallet.address, JValue.str suiCoinType])]) := by
      unfold Trade.get_gas_payment
      rw [h, hc]
      rfl
    unfold Trade.transfer_by_sui
    rw [hg]

/-- Witness for the amended claim C4: both branches at concrete inputs. -/
theorem fee_resolution_witness :
    Trade.get_gas_payment tradeConfigured coinsEmptyResp = (some feeId, []) ∧
    Trade.transfer_by_sui tradeUnconfigured coinsEmptyResp constructNoneResp
        recipientAddr 7 =
      (.error (.Transaction noGasMsg),
       [(getCoinsMethod, [JValue.str senderAddr, JValue.str suiCoinType])]) :=
  ⟨((fee_resolution tradeConfigured coinsEmptyResp constructNoneResp recipientAddr 7
      feeId).1 rfl).1,
   (fee_resolution tradeUnconfigured coinsEmptyResp constructNoneResp recipientAddr 7
      feeId).2 rfl rfl⟩

/-- Claim C5 (the derived Debug on Keystore contradicts both the spec and
the masking the code itself performs for Ed25519KeyPair): formatting the
keystore that maps address 0xabc to the secret prints the secret verbatim,
while formatting a key pair prints the mask and never the private-key
hex. -/
theorem keystore_debug_prints_secret :
    containsSubstr secretVal (fmt_debug_keystore keystore_demo) = true ∧
    containsSubstr ("***HIDDEN***") (fmt_debug_keypair kp_demo) = true ∧
    containsSubstr (String.mk (hexEncode kp_demo.private_key))
      (fmt_debug_keypair kp_demo) = false := by
  refine ⟨by decide, by decide, by decide⟩

/-- Counterexample to claim C6: invoking call_contract_function with the
explicitly configured fee resource 0xfee1 and budget 1000, the construction
call's second parameter is the package id, not the resolved fee resource id
— the fee id sits second-to-last, directly before the budget — so the
claimed ordering (sender, fee resource id, operation arguments, budget)
does not hold for every pipeline operation. -/
theorem contract_call_fee_not_second_param :
    (Trade.call_contract_function tradeConfigured coinsEmptyResp constructNoneResp
        pkgId moduleName funcName [] []).2 =
      [(moveCallMethod,
        [JValue.str senderAddr, JValue.str pkgId, JValue.str moduleName,
         JValue.str funcName, JValue.arr [], JValue.arr [],
         JValue.str feeId, JValue.str (toString (1000 : Nat))])] ∧
    ((Trade.call_contract_function tradeConfigured coinsEmptyResp constructNoneResp
        pkgId moduleName funcName [] []).2.map
      (fun call => (call.2.get? 1).bind JValue.as_str)) = [some pkgId] ∧
    pkgId ≠ feeId := by
  refine ⟨rfl, rfl, by decide⟩

/-- Claim C6 as amended: every construction call's parameter list begins
with the sender address and ends with the fee budget as a decimal string,
and contains the resolved fee resource id verbatim — directly after the
sender for transfer_by_sui, and immediately before the budget for
call_contract_function, merge_coins and split_coin; in particular, with an
explicitly configured fee resource id and budget both appear verbatim
regardless of the account's coin list. -/
theorem construction_params_shape (t : Trade) (coinsResponse : RpcResponse (List Coin))
    (constructResponse : RpcResponse JValue) (g : String) (h : t.gas_payment = some g) :
    (∀ recipient amount,
      (Trade.transfer_by_sui t coinsResponse constructResponse recipient amount).2 =
        [(transferMethod,
          [JValue.str t.wallet.address, JValue.str g, JValue.str (toString amount),
           JValue.str recipient, JValue.str (toString t.gas_budget)])]) ∧
    (∀ package_object_id module function type_arguments arguments,
      (Trade.call_contract_function t coinsResponse constructResponse package_object_id
          module function type_arguments arguments).2 =
        [(moveCallMethod,
          [JValue.str t.wallet.address, JValue.str package_object_id, JValue.str module,
           JValue.str function, JValue.arr (type_arguments.map JValue.str),
           JValue.arr arguments, JValue.str g, JValue.str (toString t.gas_budget)])]) ∧
    (∀ primary_coin coin_to_merge,
      (Trade.merge_coins t coinsResponse constructResponse primary_coin coin_to_merge).2 =
        [(mergeCoinsMethod,
          [JValue.str t.wallet.address, JValue.str primary_coin, JValue.str coin_to_merge,
           JValue.str g, JValue.str (toString t.gas_budget)])]) ∧
    (∀ coin_object_id split_amounts,
      (Trade.split_coin t coinsResponse constructResponse coin_object_id split_amounts).2 =
        [(splitCoinMethod,
          [JValue.str t.wallet.address, JValue.str coin_object_id,
           JValue.arr (split_amounts.map (fun amount => JValue.str (toString amount))),
           JValue.str g, JValue.str (toString t.gas_budget)])]) := by
  have hg : Trade.get_gas_payment t coinsResponse = (some g, []) := by
    unfold Trade.get_gas_payment
    rw [h]
  refine ⟨?_, ?_, ?_, ?_⟩
  · intro recipient amount
    unfold Trade.transfer_by_sui
    rw [hg]
    rfl
  · intro package_object_id module function type_arguments arguments
    unfold Trade.call_contract_function
    rw [hg]
    rfl
  · intro primary_coin coin_to_merge
    unfold Trade.merge_coins
    rw [hg]
    rfl
  · intro coin_object_id split_amounts
    unfold Trade.split_coin
    rw [hg]
    rfl

/-- Witness for the amended claim C6 at the claim's concrete scenario. -/
theorem construction_params_shape_witness :
    (Trade.transfer_by_sui tradeConfigured coinsEmptyResp constructNoneResp
        recipientAddr 42).2 =
      [(transferMethod,
        [JValue.str senderAddr, JValue.str feeId, JValue.str (toString (42 : Nat)),
         JValue.str recipientAddr, JValue.str (toString (1000 : Nat))])] :=
  (construction_params_shape tradeConfigured coinsEmptyResp constructNoneResp feeId
      rfl).1 recipientAddr 42

/-- Claim C7: on an already received response envelope, SuiClient::request
fails with the typed RPC error carrying the error field's message whenever
an error field is present, fails with the protocol-violation message when
neither result nor error is present, and returns the result otherwise; and
the request envelope it posts always carries protocol version 2.0 and a
request identifier. -/
theorem rpc_envelope_and_response_handling (α : Type) (response : RpcResponse α)
    (method : String) (params : List JValue) :
    (∀ e, response.error = some e →
      SuiClient.request response = .error (.Rpc e.message)) ∧
    (response.error = none → response.result = none →
      SuiClient.request response = .error (.Rpc SuiClient.noResultMsg)) ∧
    (∀ v, response.error = none → response.result = some v →
      SuiClient.request response = .ok v) ∧
    (SuiClient.request_envelope method params).jsonrpc = "2.0" ∧
    (SuiClient.request_envelope method params).id = 1 := by
  refine ⟨?_, ?_, ?_, rfl, rfl⟩
  · intro e he
    unfold SuiClient.request
    rw [he]
  · intro he hr
    unfold SuiClient.request
    rw [he, hr]
  · intro v he hr
    unfold SuiClient.request
    rw [he, hr]

/-- Witness for claim C7: an error-bearing envelope at a concrete input. -/
theorem rpc_envelope_and_response_handling_witness :
    SuiClient.request rpcBoomResp = .error (.Rpc boomMsg) :=
  (rpc_envelope_and_response_handling JValue rpcBoomResp getCoinsMethod []).1
    { code := -32600, message := boomMsg } rfl

/-- Claim C8: both streaming loops deliver to the callback exactly the
digests of the text frames that decode to JSON holding a string at
params.result.digest, in arrival order, up to the first terminating frame;
every other frame — undecodable, wrongly shaped, or a non-text frame — is
silently discarded: no callback fires for it, no error is raised, and the
loop continues.  The loop result is an error exactly for a transport
error, and success for a close frame or the end of the stream. -/
theorem listener_loop_characterization (ms : List WsMessage) :
    listen_transactions_loop ms = (digestsOf ms, streamOutcome ms) ∧
    listen_address_transactions_loop ms = (digestsOf ms, streamOutcome ms) := by
  induction ms with
  | nil => exact ⟨rfl, rfl⟩
  | cons m rest ih =>
    cases m with
    | text decoded =>
      cases hd : decoded.bind extract_digest with
      | some dg =>
        constructor
        · simp [listen_transactions_loop, hd, ih.1, digestsOf, streamOutcome,
            isTerminalFrame, frame_digest, List.takeWhile_cons, List.find?_cons]
        · simp [listen_address_transactions_loop, hd, ih.2, digestsOf, streamOutcome,
            isTerminalFrame, frame_digest, List.takeWhile_cons, List.find?_cons]
      | none =>
        constructor
        · simp [listen_transactions_loop, hd, ih.1, digestsOf, streamOutcome,
            isTerminalFrame, frame_digest, List.takeWhile_cons, List.find?_cons]
        · simp [listen_address_transactions_loop, hd, ih.2, digestsOf, streamOutcome,
            isTerminalFrame, frame_digest, List.takeWhile_cons, List.find?_cons]
    | close => exact ⟨rfl, rfl⟩
    | err e => exact ⟨rfl, rfl⟩
    | other =>
      constructor
      · simp [listen_transactions_loop, ih.1, digestsOf, streamOutcome,
          isTerminalFrame, frame_digest, List.takeWhile_cons, List.find?_cons]
      · simp [listen_address_transactions_loop, ih.2, digestsOf, streamOutcome,
          isTerminalFrame, frame_digest, List.takeWhile_cons, List.find?_cons]

theorem keystore_load_aux (l : List (String × String)) :
    ∀ acc : Keystore, ((acc.keys ++ l).map Prod.fst).Nodup →
      (l.foldl (fun ks kv => ks.add_key kv.1 kv.2) acc).keys = acc.keys ++ l := by
  induction l with
  | nil =>
    intro acc _
    simp
  | cons kv t ih =>
    intro acc hnd
    have hmem : kv.1 ∉ acc.keys.map Prod.fst := by
      rw [List.map_append] at hnd
      rcases List.nodup_append.mp hnd with ⟨h1, h2, hdisj⟩
      intro hin
      exact hdisj hin (by simp)
    have hstep : (acc.add_key kv.1 kv.2).keys = acc.keys ++ [kv] := by
      unfold Keystore.add_key
      rw [if_neg hmem]
    have hnd2 : (((acc.add_key kv.1 kv.2).keys ++ t).map Prod.fst).Nodup := by
      rw [hstep, List.append_assoc]
      simpa using hnd
    rw [List.foldl_cons, ih (acc.add_key kv.1 kv.2) hnd2, hstep, List.append_assoc]
    rfl

/-- Claim C9: saving a keystore and loading the file back yields the same
set of (address, secret) pairs, whatever order the serializer emitted the
entries in — the file is modelled as an arbitrary permutation of the
entries, since a HashMap iterates in an unspecified order — and
independently of the insertion order that built the keystore. -/
theorem keystore_roundtrip (ks : Keystore)
    (hnd : (ks.keys.map Prod.fst).Nodup) :
    (Keystore.load_from_file (Keystore.save_to_file ks)).keys = ks.keys ∧
    ∀ file : List (String × String), file.Perm ks.keys →
      (Keystore.load_from_file file).keys.Perm ks.keys := by
  have hload : ∀ l : List (String × String), (l.map Prod.fst).Nodup →
      (Keystore.load_from_file l).keys = l := by
    intro l hl
    have h := keystore_load_aux l Keystore.new (by simpa [Keystore.new] using hl)
    simpa [Keystore.load_from_file, Keystore.new] using h
  constructor
  · exact hload ks.keys hnd
  · intro file hperm
    have hnd2 : (file.map Prod.fst).Nodup :=
      ((hperm.map Prod.fst).symm).nodup hnd
    rw [hload file hnd2]
    exact hperm

/-- Witness for claim C9: a two-entry keystore reloaded from its entries in
reversed order holds the same pairs. -/
theorem keystore_roundtrip_witness :
    (Keystore.load_from_file [(addr2, secret2), (addr1, secret1)]).keys.Perm
      keystore_two.keys :=
  (keystore_roundtrip keystore_two (by decide)).2
    [(addr2, secret2), (addr1, secret1)] (by decide)
